import Mathlib

/-!
Shallow embedding of the vehicle-dynamics core of the rocket-league-clone
repository. JavaScript double-precision numbers are modelled as exact
rationals; the transcendental Math functions the code calls (sin, cos, PI,
sqrt) have no exact rational embedding and are therefore supplied as an
abstract parameter record JsMath. All definitions are translated line by
line from src/js/car.js, src/js/utils.js and the stadium / ball sources.
-/

namespace RocketLeague

/-- Team tag of a car ("blue" or "orange" strings in the source). -/
inductive Team where
  | blue
  | orange
deriving DecidableEq, Repr

/-- Three-component vector over the rationals, modelling THREE.Vector3 and
CANNON.Vec3 (JS doubles modelled exactly). -/
@[ext]
structure Vec3 where
  x : ℚ
  y : ℚ
  z : ℚ
deriving DecidableEq, Repr

/-- Abstract model of the JavaScript Math functions used by the source.
sin and cos model Math.sin / Math.cos (reached through applyEuler on a
yaw-only Euler rotation and through directionFromRotation), pi models
Math.PI, and sqrt models Math.sqrt (reached through Vector3.length and
Vector3.distanceTo). They are parameters of the embedding because the
floating-point transcendental functions have no exact rational form. -/
structure JsMath where
  sin : ℚ → ℚ
  cos : ℚ → ℚ
  pi : ℚ
  sqrt : ℚ → ℚ

/-- Vector difference, modelling THREE.Vector3.subVectors. -/
def Vec3.sub (a b : Vec3) : Vec3 := ⟨a.x - b.x, a.y - b.y, a.z - b.z⟩

/-- Vector sum, modelling THREE.Vector3.add. -/
def Vec3.add (a b : Vec3) : Vec3 := ⟨a.x + b.x, a.y + b.y, a.z + b.z⟩

/-- Scalar multiple, modelling THREE.Vector3.multiplyScalar. -/
def Vec3.smul (v : Vec3) (k : ℚ) : Vec3 := ⟨v.x * k, v.y * k, v.z * k⟩

/-- Dot product, modelling THREE.Vector3.dot. -/
def Vec3.dot (a b : Vec3) : ℚ := a.x * b.x + a.y * b.y + a.z * b.z

/-- Squared euclidean length, modelling THREE.Vector3.lengthSq. -/
def Vec3.lengthSq (v : Vec3) : ℚ := v.x * v.x + v.y * v.y + v.z * v.z

/-- Euclidean length through the JS square root, modelling
THREE.Vector3.length, which is Math.sqrt(lengthSq). -/
def Vec3.length (M : JsMath) (v : Vec3) : ℚ := M.sqrt v.lengthSq

/-- THREE.Vector3.normalize is divideScalar(this.length() || 1): when the
length is exactly 0 the JS falsy-or substitutes the divisor 1, so the zero
vector normalizes to itself instead of producing NaN components; and
divideScalar(s) is multiplyScalar(1 / s). -/
def Vec3.normalize (M : JsMath) (v : Vec3) : Vec3 :=
  let len := v.length M
  let d := if len = 0 then 1 else len
  v.smul (1 / d)

/-- The seven boolean control intents (this.controls in car.js). -/
@[ext]
structure Controls where
  forward : Bool
  backward : Bool
  left : Bool
  right : Bool
  boost : Bool
  jump : Bool
  drift : Bool
deriving DecidableEq, Repr

/-- All intents released. -/
def Controls.allOff : Controls :=
  ⟨false, false, false, false, false, false, false⟩

/-- clamp from src/js/utils.js: Math.max(lo, Math.min(hi, value)). -/
def clamp (value lo hi : ℚ) : ℚ := max lo (min hi value)

/-- JS Math.sign restricted to rationals. -/
def jsSign (x : ℚ) : ℚ := if 0 < x then 1 else if x < 0 then -1 else 0

namespace Car

/-- this.dimensions.width in the Car constructor. -/
def dimWidth : ℚ := 8
/-- this.dimensions.height in the Car constructor. -/
def dimHeight : ℚ := 5
/-- this.dimensions.length in the Car constructor. -/
def dimLength : ℚ := 12
/-- this.maxSpeed (car.js line 39). -/
def maxSpeed : ℚ := 80
/-- this.acceleration (car.js line 40). -/
def acceleration : ℚ := 120
/-- this.deceleration (car.js line 41). -/
def deceleration : ℚ := 200
/-- this.turnSpeed (car.js line 42). -/
def turnSpeed : ℚ := 5 / 2
/-- this.driftTurnMultiplier (car.js line 43). -/
def driftTurnMultiplier : ℚ := 9 / 5
/-- this.gravity (car.js line 44). -/
def gravity : ℚ := 20
/-- this.jumpForce (car.js line 45). -/
def jumpForce : ℚ := 10
/-- this.groundLevel = dimensions.height / 2 + 0.5 (car.js line 46). -/
def groundLevel : ℚ := dimHeight / 2 + 1 / 2
/-- this.boostRechargeRate (car.js line 52). -/
def boostRechargeRate : ℚ := 10
/-- this.boostForce (car.js line 53). -/
def boostForce : ℚ := 200
/-- this.jumpCooldownTime (car.js line 57). -/
def jumpCooldownTime : ℚ := 3 / 10

/-- Mutable state of the simplified Car of src/js/car.js. The Euler
rotation always has zero x and z components in this implementation (only
rotation.y is ever written), so only the yaw is carried. Meshes, wheels and
boost particles are rendering-only objects and carry no simulation state. -/
@[ext]
structure CarState where
  team : Team
  position : Vec3
  rotationY : ℚ
  velocity : Vec3
  angularVelocity : ℚ
  speed : ℚ
  isBoosting : Bool
  boostAmount : ℚ
  canJump : Bool
  isJumping : Bool
  jumpCooldown : ℚ
  isDrifting : Bool
  isOnGround : Bool
  controls : Controls
deriving DecidableEq, Repr

/-- Forward direction of the car: the vector (0,0,1) rotated by the Euler
rotation (0, yaw, 0) (car.js line 356), which is (sin yaw, 0, cos yaw). -/
def forwardDir (M : JsMath) (yaw : ℚ) : Vec3 := ⟨M.sin yaw, 0, M.cos yaw⟩

/-- car.js lines 359-361: driving backward when the backward intent is held
without the forward intent, or the scalar speed is already negative. -/
def isDrivingBackward (c : Controls) (speed : ℚ) : Bool :=
  (c.backward && !c.forward) || decide (speed < 0)

/-- car.js lines 363-377: the acceleration / braking if-else chain. With no
longitudinal intent the speed decelerates toward zero and is clamped so it
never crosses zero within the tick. -/
def accelBrakeStep (c : Controls) (speed dt : ℚ) : ℚ :=
  if c.forward then speed + acceleration * dt
  else if c.backward then speed - acceleration * dt
  else if 0 < speed then
    let s := speed - deceleration * dt
    if s < 0 then 0 else s
  else if speed < 0 then
    let s := speed + deceleration * dt
    if 0 < s then 0 else s
  else speed

/-- car.js lines 379-384: boost engages when the boost intent is held, the
car is not driving backward and the car is on the ground; it adds
boostForce * dt to the scalar speed. Returns (isBoosting, new speed). -/
def boostStep (c : Controls) (drivingBackward onGround : Bool)
    (speed dt : ℚ) : Bool × ℚ :=
  if c.boost && !drivingBackward && onGround then (true, speed + boostForce * dt)
  else (false, speed)

/-- car.js line 387: effective maximum speed is 1.5 times maxSpeed while
boosting, maxSpeed otherwise. -/
def effectiveMaxSpeed (boosting : Bool) : ℚ :=
  if boosting then maxSpeed * (3 / 2) else maxSpeed

/-- car.js line 388: clamp the scalar speed to
[-maxSpeed * 0.6, effectiveMaxSpeed]. -/
def clampSpeedStep (boosting : Bool) (speed : ℚ) : ℚ :=
  clamp speed (-(maxSpeed * (3 / 5))) (effectiveMaxSpeed boosting)

/-- car.js lines 407-410: turn-effectiveness factor, at least 0.8, reduced
by up to 20 percent of the ratio of current speed to maxSpeed. -/
def speedFactor (speed : ℚ) : ℚ :=
  max (4 / 5) (1 - |speed| / maxSpeed * (1 / 5))

/-- car.js lines 413-418: effective turn rate, the base turn speed times
1.5 times the speed factor, times the drift multiplier while drifting. -/
def effectiveTurnRate (speed : ℚ) (drifting : Bool) : ℚ :=
  turnSpeed * (3 / 2) * speedFactor speed *
    (if drifting then driftTurnMultiplier else 1)

/-- car.js lines 394-426: grounded steering. Left wins over right in the
if-else chain; steering is inverted while driving backward; with no
steering intent the angular velocity decays by the factor 0.9; airborne the
angular velocity is untouched. -/
def turnStep (c : Controls) (drivingBackward onGround drifting : Bool)
    (speed angularVelocity : ℚ) : ℚ :=
  if onGround then
    let turnAmount : ℚ :=
      if c.left then (if drivingBackward then -1 else 1)
      else if c.right then (if drivingBackward then 1 else -1)
      else 0
    if turnAmount ≠ 0 then turnAmount * effectiveTurnRate speed drifting
    else angularVelocity * (9 / 10)
  else angularVelocity

/-- car.js lines 429-440: apply the scalar speed along the forward
direction, replacing the x and z velocity components and keeping y; when
the speed magnitude is at most 0.1, damp x and z by the factor 0.95. -/
def moveStep (fdir : Vec3) (speed : ℚ) (v : Vec3) : Vec3 :=
  if 1 / 10 < |speed| then ⟨fdir.x * speed, v.y, fdir.z * speed⟩
  else ⟨v.x * (19 / 20), v.y, v.z * (19 / 20)⟩

/-- Guard of the jump branch (car.js line 443): jump intent held, jump
available, not already mid-jump, and on the ground. -/
def jumpFires (s : CarState) : Bool :=
  s.controls.jump && s.canJump && !s.isJumping && s.isOnGround

/-- Car.handleControls (car.js lines 354-453), the per-tick control
handler: longitudinal acceleration / braking, boost, speed clamp, drift
flag, steering, velocity application, and the jump branch, in source
order. -/
def handleControls (M : JsMath) (s : CarState) (dt : ℚ) : CarState :=
  let fdir := forwardDir M s.rotationY
  let drivingBackward := isDrivingBackward s.controls s.speed
  let speed1 := accelBrakeStep s.controls s.speed dt
  let bs := boostStep s.controls drivingBackward s.isOnGround speed1 dt
  let speed2 := clampSpeedStep bs.1 bs.2
  let drifting := s.controls.drift && decide (20 < |speed2|) && s.isOnGround
  let angVel := turnStep s.controls drivingBackward s.isOnGround drifting
    speed2 s.angularVelocity
  let vel1 := moveStep fdir speed2 s.velocity
  if jumpFires s then
    { s with
      speed := speed2
      isBoosting := bs.1
      isDrifting := drifting
      angularVelocity := angVel
      velocity := ⟨vel1.x, jumpForce, vel1.z⟩
      isOnGround := false
      isJumping := true
      canJump := false
      jumpCooldown := jumpCooldownTime }
  else if !s.controls.jump then
    { s with
      speed := speed2
      isBoosting := bs.1
      isDrifting := drifting
      angularVelocity := angVel
      velocity := vel1
      isJumping := false }
  else
    { s with
      speed := speed2
      isBoosting := bs.1
      isDrifting := drifting
      angularVelocity := angVel
      velocity := vel1 }

/-- car.js lines 290-293: gravity applies only while airborne. -/
def gravityStep (s : CarState) (dt : ℚ) : CarState :=
  if s.isOnGround then s
  else { s with velocity := ⟨s.velocity.x, s.velocity.y - gravity * dt, s.velocity.z⟩ }

/-- car.js lines 295-299: integrate position by velocity and yaw by angular
velocity. -/
def integrateStep (s : CarState) (dt : ℚ) : CarState :=
  { s with
    position := ⟨s.position.x + s.velocity.x * dt,
      s.position.y + s.velocity.y * dt,
      s.position.z + s.velocity.z * dt⟩,
    rotationY := s.rotationY + s.angularVelocity * dt }

/-- car.js lines 301-306: ground collision clamps the height to
groundLevel, zeroes vertical velocity and marks the car grounded. -/
def groundStep (s : CarState) : CarState :=
  if s.position.y ≤ groundLevel then
    { s with
      position := ⟨s.position.x, groundLevel, s.position.z⟩
      velocity := ⟨s.velocity.x, 0, s.velocity.z⟩
      isOnGround := true }
  else s

/-- car.js lines 318-323: while the jump cooldown is positive it counts
down; once elapsed, the jump re-arms only when grounded. -/
def cooldownStep (s : CarState) (dt : ℚ) : CarState :=
  if 0 < s.jumpCooldown then { s with jumpCooldown := s.jumpCooldown - dt }
  else if !s.canJump && s.isOnGround then { s with canJump := true }
  else s

/-- car.js lines 325-329: boost recharges at boostRechargeRate while not
boosting, clamped at 100. -/
def rechargeStep (s : CarState) (dt : ℚ) : CarState :=
  if !s.isBoosting && s.boostAmount < 100 then
    let b := s.boostAmount + boostRechargeRate * dt
    { s with boostAmount := if 100 < b then 100 else b }
  else s

/-- Car.reset (car.js lines 455-497). A none argument selects the
team-dependent spawn position; the heading is yaw 0 for blue and yaw pi for
orange; velocities, scalar speed, jump state, drift flag and all control
intents are cleared and boost is restored to 100. -/
def reset (M : JsMath) (s : CarState) (pos : Option Vec3) : CarState :=
  let p := match pos with
    | some q => q
    | none => ⟨(if s.team = Team.blue then -50 else 50), groundLevel,
        (if s.team = Team.blue then -120 else 120)⟩
  { s with
    position := p
    rotationY := if s.team = Team.blue then 0 else M.pi
    velocity := ⟨0, 0, 0⟩
    angularVelocity := 0
    speed := 0
    boostAmount := 100
    canJump := true
    isJumping := false
    jumpCooldown := 0
    isDrifting := false
    isOnGround := true
    controls := Controls.allOff }

/-- car.js lines 331-334: falling below y = -50 triggers a reset. -/
def outOfBoundsStep (M : JsMath) (s : CarState) : CarState :=
  if s.position.y < -50 then reset M s none else s

/-- car.js lines 336-351: simple stadium boundary checks with a half-energy
bounce off the side and end walls (stadiumWidth 300, stadiumLength 450). -/
def wallBounceStep (s : CarState) : CarState :=
  let halfWidth : ℚ := 300 / 2
  let halfLength : ℚ := 450 / 2
  let s1 := if halfWidth - dimWidth / 2 < |s.position.x| then
      { s with
        position := ⟨jsSign s.position.x * (halfWidth - dimWidth / 2),
          s.position.y, s.position.z⟩,
        velocity := ⟨s.velocity.x * (-(1 / 2)), s.velocity.y, s.velocity.z⟩ }
    else s
  if halfLength - dimLength / 2 < |s1.position.z| then
    { s1 with
      position := ⟨s1.position.x, s1.position.y,
        jsSign s1.position.z * (halfLength - dimLength / 2)⟩,
      velocity := ⟨s1.velocity.x, s1.velocity.y, s1.velocity.z * (-(1 / 2))⟩ }
  else s1

/-- Car.update (car.js lines 286-352): the per-tick update in source order.
Copying state into the mesh and updating the boost particles are
rendering-only effects with no bearing on the simulation state and so do
not appear. -/
def update (M : JsMath) (s : CarState) (dt : ℚ) : CarState :=
  wallBounceStep (outOfBoundsStep M
    (rechargeStep (cooldownStep (groundStep
      (integrateStep (gravityStep (handleControls M s dt) dt) dt)) dt) dt))

/-- car.js lines 506-510: the car's bounding-sphere radius, the maximum
half-extent of its box dimensions. -/
def carRadius : ℚ := max (dimWidth / 2) (max (dimHeight / 2) (dimLength / 2))

/-- car.js line 523: impulse magnitude from the car's scalar speed, scaled
by the empirical coefficient 0.3. -/
def impactForce (speed : ℚ) : ℚ := |speed| * (3 / 10)

/-- car.js line 533: the final impulse magnitude with the directness bonus,
impactForce * (1 + directness * 0.5). -/
def finalForce (speed directness : ℚ) : ℚ :=
  impactForce speed * (1 + directness * (1 / 2))

end Car

/-- State of the Ball entity relevant to impulses: position and velocity of
its physics body, plus the radius (5) and mass (1) constants from the Ball
constructor. -/
@[ext]
structure BallState where
  position : Vec3
  velocity : Vec3
  radius : ℚ
  mass : ℚ
deriving DecidableEq, Repr

/-- Ball.applyImpulse (part_002 lines 1153-1159): normalize the direction,
scale by the force, and apply through CANNON.Body.applyImpulse at the
body's own position, which adds impulse / mass to the linear velocity and,
the offset being zero, leaves angular velocity unchanged. -/
def BallState.applyImpulse (M : JsMath) (b : BallState) (direction : Vec3)
    (force : ℚ) : BallState :=
  let impulse := (direction.normalize M).smul force
  { b with velocity := b.velocity.add (impulse.smul (1 / b.mass)) }

namespace Car

/-- Car.handleBallCollision (car.js lines 500-556): bounding-sphere contact
test (the JS expression ball.radius || 5 substitutes 5 when the radius is
0), contact normal from car center to ball center, impulse magnitude from
speed and directness, a conditional pop-up impulse, and a small reactive
bounce applied to the car. Returns the updated car, the updated ball, and
whether a collision occurred. -/
def handleBallCollision (M : JsMath) (car : CarState) (ball : BallState) :
    CarState × BallState × Bool :=
  let ballRadius := if ball.radius = 0 then 5 else ball.radius
  let distance := (ball.position.sub car.position).length M
  if distance < carRadius + ballRadius then
    let normal := (ball.position.sub car.position).normalize M
    let fdir := forwardDir M car.rotationY
    let directness := |fdir.dot normal|
    let force := finalForce car.speed directness
    let ball1 := ball.applyImpulse M normal force
    let ball2 := if 40 < car.speed ∧ 4 / 5 < directness then
        ball1.applyImpulse M ⟨0, 1, 0⟩ (min (car.speed * (1 / 10)) 5)
      else ball1
    let bounceStrength := force * (1 / 20)
    let car1 := { car with
      velocity := car.velocity.add (normal.smul (-bounceStrength)) }
    (car1, ball2, true)
  else (car, ball, false)

end Car

namespace Stadium

/-- dimensions.length of the Stadium whose checkGoal is embedded below
(constructor of the first Stadium in part_000). -/
def stadiumLength : ℚ := 300
/-- Local constant goalWidth in checkGoal (part_000 line 504). -/
def goalWidth : ℚ := 40
/-- Local constant goalHeight in checkGoal (part_000 line 505). -/
def goalHeight : ℚ := 30
/-- Local constant goalDepth in checkGoal (part_000 line 506). -/
def goalDepth : ℚ := 20

/-- Stadium.checkGoal (part_000 lines 503-531): a ball strictly inside the
blue goal box (negative z end) scores for orange, a ball strictly inside
the orange goal box (positive z end) scores for blue, anything else is no
goal. -/
def checkGoal (ballPosition : Vec3) : Option Team :=
  if -(goalWidth / 2) < ballPosition.x ∧ ballPosition.x < goalWidth / 2 ∧
      ballPosition.y < goalHeight ∧
      ballPosition.z < -(stadiumLength / 2) ∧
      -(stadiumLength / 2 + goalDepth) < ballPosition.z then
    some Team.orange
  else if -(goalWidth / 2) < ballPosition.x ∧ ballPosition.x < goalWidth / 2 ∧
      ballPosition.y < goalHeight ∧
      stadiumLength / 2 < ballPosition.z ∧
      ballPosition.z < stadiumLength / 2 + goalDepth then
    some Team.blue
  else none

end Stadium

namespace P1

/-- part_001 handleControls lines 488-497 (the velocity-space historical
variant): the horizontal velocity is scaled down when its length exceeds
the effective maximum (doubled while boosting); the y component is
deliberately not limited so jumps stay free. -/
def limitSpeed (M : JsMath) (velocity : Vec3) (isBoosting : Bool)
    (maxSpeed : ℚ) : Vec3 :=
  let currentSpeed := velocity.length M
  let effectiveMaxSpeed := if isBoosting then maxSpeed * 2 else maxSpeed
  if effectiveMaxSpeed < currentSpeed then
    let limitFactor := effectiveMaxSpeed / currentSpeed
    ⟨velocity.x * limitFactor, velocity.y, velocity.z * limitFactor⟩
  else velocity

end P1

namespace P2

/-- this.boostConsumptionRate of the part_002 Car constructor (line 39). -/
def boostConsumptionRate : ℚ := 30
/-- this.boostRechargeRate of the part_002 Car constructor (line 38). -/
def boostRechargeRate : ℚ := 10

/-- part_002 handleControls lines 371-388 restricted to the fields it
mutates besides the physics body: boost engages when the intent is held and
boostAmount is positive, and consumption reduces boostAmount by
boostConsumptionRate * dt, clamped at 0. Returns (isBoosting, new
boostAmount); the applyForce call in the same branch mutates only the
physics body. -/
def boostConsumeStep (c : Controls) (boostAmount dt : ℚ) : Bool × ℚ :=
  if c.boost && decide (0 < boostAmount) then
    let b := boostAmount - boostConsumptionRate * dt
    (true, if b < 0 then 0 else b)
  else (false, boostAmount)

/-- part_002 update lines 301-305: boost recharge while not boosting,
clamped at 100. -/
def rechargeStep (isBoosting : Bool) (boostAmount dt : ℚ) : ℚ :=
  if !isBoosting && boostAmount < 100 then
    let b := boostAmount + boostRechargeRate * dt
    if 100 < b then 100 else b
  else boostAmount

/-- One tick of the part_002 boost-amount pipeline in update order: the
handleControls consumption followed by the update recharge. -/
def boostTick (c : Controls) (boostAmount dt : ℚ) : ℚ :=
  let bs := boostConsumeStep c boostAmount dt
  rechargeStep bs.1 bs.2 dt

end P2

/-- Concrete JsMath instance used to evaluate the model on concrete inputs
(sin of anything is 0, cos is 1, a rational stand-in for pi, sqrt of
anything is 0; only the values the concrete runs reach matter). -/
def jsMath0 : JsMath := ⟨fun _ => 0, fun _ => 1, 314159 / 100000, fun _ => 0⟩

/-- Concrete car state at the blue spawn pose, used to evaluate the model
on concrete inputs. -/
def carState0 : Car.CarState where
  team := Team.blue
  position := ⟨-50, 3, -120⟩
  rotationY := 0
  velocity := ⟨0, 0, 0⟩
  angularVelocity := 0
  speed := 0
  isBoosting := false
  boostAmount := 100
  canJump := true
  isJumping := false
  jumpCooldown := 0
  isDrifting := false
  isOnGround := true
  controls := Controls.allOff

/-- Concrete ball state at the spawn point, used to evaluate the model on
concrete inputs. -/
def ballState0 : BallState := ⟨⟨0, 20, 0⟩, ⟨0, 0, 0⟩, 5, 1⟩

/-- Concrete car state holding only the left-steering intent. -/
def carLeft0 : Car.CarState :=
  { carState0 with controls := { Controls.allOff with left := true } }

/-- Concrete grounded car state holding only the jump intent, with the jump
armed. -/
def carJump0 : Car.CarState :=
  { carState0 with controls := { Controls.allOff with jump := true } }

/-- Concrete grounded car state with the jump disarmed and the cooldown
elapsed, about to re-arm. -/
def carRearm0 : Car.CarState := { carState0 with canJump := false }

/-- Concrete coasting car state with speed 10 and no intents held. -/
def carBrake10 : Car.CarState := { carState0 with speed := 10 }

/-- Concrete ball whose center coincides with the concrete car's center. -/
def ballCo0 : BallState := ⟨⟨-50, 3, -120⟩, ⟨1, 2, 3⟩, 5, 1⟩

/-! Helper lemmas. -/

theorem Vec3.smul_zero (v : Vec3) : v.smul 0 = ⟨0, 0, 0⟩ := by
  unfold Vec3.smul
  simp

theorem Vec3.add_zero_vec (v : Vec3) : v.add ⟨0, 0, 0⟩ = v := by
  unfold Vec3.add
  simp

theorem Vec3.add_smul_zero (v w : Vec3) : v.add (w.smul 0) = v := by
  unfold Vec3.smul Vec3.add
  simp

theorem BallState.applyImpulse_zero_force (M : JsMath) (b : BallState)
    (dir : Vec3) : b.applyImpulse M dir 0 = b := by
  unfold BallState.applyImpulse Vec3.normalize Vec3.smul Vec3.add
  simp

theorem Car.handleBallCollision_rest_velocities (M : JsMath)
    (c : Car.CarState) (ball : BallState) (hz : c.speed = 0) :
    (Car.handleBallCollision M c ball).2.1.velocity = ball.velocity ∧
    (Car.handleBallCollision M c ball).1.velocity = c.velocity := by
  have hzero : ∀ d : ℚ, Car.finalForce 0 d = 0 := by
    intro d
    unfold Car.finalForce Car.impactForce
    simp
  simp only [Car.handleBallCollision]
  split_ifs with h1 h2 h3 h4 h5 h6 <;>
    first
      | exact ⟨rfl, rfl⟩
      | (constructor
         · show (BallState.applyImpulse M ball _ _).velocity = ball.velocity
           rw [hz, hzero, BallState.applyImpulse_zero_force]
         · show (c.velocity.add _) = c.velocity
           rw [hz, hzero]
           rw [show (-((0 : ℚ) * (1 / 20))) = 0 by norm_num]
           exact Vec3.add_smul_zero _ _)
      | (exfalso
         rw [hz] at *
         first
           | exact absurd h2.1 (by norm_num)
           | exact absurd h3.1 (by norm_num)
           | exact absurd h5.1 (by norm_num))

theorem Car.moveStep_y (fdir : Vec3) (sp : ℚ) (v : Vec3) :
    (Car.moveStep fdir sp v).y = v.y := by
  unfold Car.moveStep
  split_ifs <;> rfl

theorem Car.handleControls_controls (M : JsMath) (s : Car.CarState) (dt : ℚ) :
    (Car.handleControls M s dt).controls = s.controls := by
  simp only [Car.handleControls]
  split_ifs <;> rfl

theorem Car.handleControls_team (M : JsMath) (s : Car.CarState) (dt : ℚ) :
    (Car.handleControls M s dt).team = s.team := by
  simp only [Car.handleControls]
  split_ifs <;> rfl

theorem Car.handleControls_boostAmount (M : JsMath) (s : Car.CarState) (dt : ℚ) :
    (Car.handleControls M s dt).boostAmount = s.boostAmount := by
  simp only [Car.handleControls]
  split_ifs <;> rfl

theorem Car.handleControls_position (M : JsMath) (s : Car.CarState) (dt : ℚ) :
    (Car.handleControls M s dt).position = s.position := by
  simp only [Car.handleControls]
  split_ifs <;> rfl

theorem Car.handleControls_speed_eq (M : JsMath) (s : Car.CarState) (dt : ℚ) :
    (Car.handleControls M s dt).speed =
      Car.clampSpeedStep
        (Car.boostStep s.controls (Car.isDrivingBackward s.controls s.speed)
          s.isOnGround (Car.accelBrakeStep s.controls s.speed dt) dt).1
        (Car.boostStep s.controls (Car.isDrivingBackward s.controls s.speed)
          s.isOnGround (Car.accelBrakeStep s.controls s.speed dt) dt).2 := by
  simp only [Car.handleControls]
  split_ifs <;> rfl

theorem Car.handleControls_isBoosting_eq (M : JsMath) (s : Car.CarState) (dt : ℚ) :
    (Car.handleControls M s dt).isBoosting =
      (Car.boostStep s.controls (Car.isDrivingBackward s.controls s.speed)
        s.isOnGround (Car.accelBrakeStep s.controls s.speed dt) dt).1 := by
  simp only [Car.handleControls]
  split_ifs <;> rfl

/-! Claim theorems. -/

/-- C1: Goal detection: every ball position with z strictly between
-(stadiumLength / 2) and -(stadiumLength / 2 + goalDepth) and strictly
within the goal width and below the goal height reports orange as the
scoring team (the attacking team); the mirrored box at the positive-z end
reports blue; the arena center reports no goal; and a ball one unit beyond
the blue depth band reports no goal. -/
theorem checkGoal_goal_boxes (p q : Vec3)
    (hpx1 : -(Stadium.goalWidth / 2) < p.x) (hpx2 : p.x < Stadium.goalWidth / 2)
    (hpy : p.y < Stadium.goalHeight)
    (hpz1 : p.z < -(Stadium.stadiumLength / 2))
    (hpz2 : -(Stadium.stadiumLength / 2 + Stadium.goalDepth) < p.z)
    (hqx1 : -(Stadium.goalWidth / 2) < q.x) (hqx2 : q.x < Stadium.goalWidth / 2)
    (hqy : q.y < Stadium.goalHeight)
    (hqz1 : Stadium.stadiumLength / 2 < q.z)
    (hqz2 : q.z < Stadium.stadiumLength / 2 + Stadium.goalDepth) :
    Stadium.checkGoal p = some Team.orange ∧
    Stadium.checkGoal q = some Team.blue ∧
    Stadium.checkGoal ⟨0, 0, 0⟩ = none ∧
    Stadium.checkGoal
      ⟨p.x, p.y, -(Stadium.stadiumLength / 2 + Stadium.goalDepth) - 1⟩ = none := by
  have hmid : -(Stadium.stadiumLength / 2) < Stadium.stadiumLength / 2 := by
    norm_num [Stadium.stadiumLength]
  refine ⟨?_, ?_, ?_, ?_⟩
  · unfold Stadium.checkGoal
    rw [if_pos ⟨hpx1, hpx2, hpy, hpz1, hpz2⟩]
  · unfold Stadium.checkGoal
    rw [if_neg, if_pos ⟨hqx1, hqx2, hqy, hqz1, hqz2⟩]
    intro h
    exact absurd h.2.2.2.1 (by linarith)
  · unfold Stadium.checkGoal
    rw [if_neg, if_neg]
    · intro h
      have := h.2.2.2.1
      norm_num [Stadium.stadiumLength] at this
    · intro h
      have := h.2.2.2.1
      norm_num [Stadium.stadiumLength] at this
  · unfold Stadium.checkGoal
    rw [if_neg, if_neg]
    · intro h
      have h1 : Stadium.stadiumLength / 2 <
          -(Stadium.stadiumLength / 2 + Stadium.goalDepth) - 1 := h.2.2.2.1
      have : (0 : ℚ) < Stadium.goalDepth := by norm_num [Stadium.goalDepth]
      linarith
    · intro h
      have h1 : -(Stadium.stadiumLength / 2 + Stadium.goalDepth) <
          -(Stadium.stadiumLength / 2 + Stadium.goalDepth) - 1 := h.2.2.2.2
      linarith

/-- Witness for C1 at concrete points inside each goal box. -/
theorem checkGoal_goal_boxes_witness :
    Stadium.checkGoal ⟨0, 10, -160⟩ = some Team.orange ∧
    Stadium.checkGoal ⟨0, 10, 160⟩ = some Team.blue ∧
    Stadium.checkGoal ⟨0, 0, 0⟩ = none := by
  have h := checkGoal_goal_boxes ⟨0, 10, -160⟩ ⟨0, 10, 160⟩
    (by norm_num [Stadium.goalWidth]) (by norm_num [Stadium.goalWidth])
    (by norm_num [Stadium.goalHeight])
    (by norm_num [Stadium.stadiumLength])
    (by norm_num [Stadium.stadiumLength, Stadium.goalDepth])
    (by norm_num [Stadium.goalWidth]) (by norm_num [Stadium.goalWidth])
    (by norm_num [Stadium.goalHeight])
    (by norm_num [Stadium.stadiumLength])
    (by norm_num [Stadium.stadiumLength, Stadium.goalDepth])
  exact ⟨h.1, h.2.1, h.2.2.1⟩

/-- C5: Vehicle-ball impulse: the impulse magnitude at speed 0 is zero for
every directness (and the resolver then leaves the ball velocity
unchanged), and at any fixed nonzero speed the impulse magnitude is
strictly increasing in the directness of the hit, so a head-on hit
(directness 1) exceeds any glancing hit (directness below 1). -/
theorem finalForce_directness_mono (M : JsMath) (c : Car.CarState)
    (ball : BallState) (sp d1 d2 : ℚ)
    (hsp : sp ≠ 0) (hd : d1 < d2) (hz : c.speed = 0) :
    (∀ d : ℚ, Car.finalForce 0 d = 0) ∧
    Car.finalForce sp d1 < Car.finalForce sp d2 ∧
    (Car.handleBallCollision M c ball).2.1.velocity = ball.velocity ∧
    (Car.handleBallCollision M c ball).1.velocity = c.velocity := by
  have hzero : ∀ d : ℚ, Car.finalForce 0 d = 0 := by
    intro d
    unfold Car.finalForce Car.impactForce
    simp
  refine ⟨hzero, ?_,
    (Car.handleBallCollision_rest_velocities M c ball hz).1,
    (Car.handleBallCollision_rest_velocities M c ball hz).2⟩
  unfold Car.finalForce Car.impactForce
  have habs : 0 < |sp| := abs_pos.mpr hsp
  have h310 : (0 : ℚ) < 3 / 10 := by norm_num
  nlinarith

/-- Witness for C5 at a concrete car at rest touching the concrete ball,
and concrete directness values one half and one. -/
theorem finalForce_directness_mono_witness :
    Car.finalForce 0 (1 / 2) = 0 ∧
    Car.finalForce 80 (1 / 2) < Car.finalForce 80 1 ∧
    (Car.handleBallCollision jsMath0 carState0 ballState0).2.1.velocity =
      ballState0.velocity := by
  have h := finalForce_directness_mono jsMath0 carState0 ballState0 80 (1 / 2) 1
    (by norm_num) (by norm_num) rfl
  exact ⟨h.1 (1 / 2), h.2.1, h.2.2.1⟩

theorem Car.handleControls_angularVelocity_eq (M : JsMath) (s : Car.CarState)
    (dt : ℚ) :
    (Car.handleControls M s dt).angularVelocity =
      Car.turnStep s.controls (Car.isDrivingBackward s.controls s.speed)
        s.isOnGround
        (s.controls.drift &&
          decide (20 < |Car.clampSpeedStep
            (Car.boostStep s.controls (Car.isDrivingBackward s.controls s.speed)
              s.isOnGround (Car.accelBrakeStep s.controls s.speed dt) dt).1
            (Car.boostStep s.controls (Car.isDrivingBackward s.controls s.speed)
              s.isOnGround (Car.accelBrakeStep s.controls s.speed dt) dt).2|) &&
          s.isOnGround)
        (Car.clampSpeedStep
          (Car.boostStep s.controls (Car.isDrivingBackward s.controls s.speed)
            s.isOnGround (Car.accelBrakeStep s.controls s.speed dt) dt).1
          (Car.boostStep s.controls (Car.isDrivingBackward s.controls s.speed)
            s.isOnGround (Car.accelBrakeStep s.controls s.speed dt) dt).2)
        s.angularVelocity := by
  simp only [Car.handleControls]
  split_ifs <;> rfl

theorem Car.effectiveTurnRate_ge_three (v : ℚ) (d : Bool) :
    3 ≤ Car.effectiveTurnRate v d := by
  have hsf : (4 : ℚ) / 5 ≤ Car.speedFactor v := by
    unfold Car.speedFactor
    exact le_max_left _ _
  unfold Car.effectiveTurnRate Car.turnSpeed Car.driftTurnMultiplier
  cases d <;> simp <;> nlinarith

/-- C7: Reset postcondition: reset with no argument restores exactly the
spawn state for the car's team: team-dependent position (blue at
(-50, groundLevel, -120), orange mirrored) and heading (yaw 0 for blue, yaw
pi for orange), zero linear and angular velocity, speed 0, boostAmount 100,
jump available with zero cooldown, drift cleared, grounded, and all seven
control intents false. -/
theorem reset_spawn_state (M : JsMath) (s : Car.CarState) :
    (Car.reset M s none).position =
      ⟨(if s.team = Team.blue then -50 else 50), Car.groundLevel,
        (if s.team = Team.blue then -120 else 120)⟩ ∧
    (Car.reset M s none).rotationY = (if s.team = Team.blue then 0 else M.pi) ∧
    (Car.reset M s none).velocity = ⟨0, 0, 0⟩ ∧
    (Car.reset M s none).angularVelocity = 0 ∧
    (Car.reset M s none).speed = 0 ∧
    (Car.reset M s none).boostAmount = 100 ∧
    (Car.reset M s none).canJump = true ∧
    (Car.reset M s none).jumpCooldown = 0 ∧
    (Car.reset M s none).isJumping = false ∧
    (Car.reset M s none).isDrifting = false ∧
    (Car.reset M s none).isOnGround = true ∧
    (Car.reset M s none).controls = Controls.allOff :=
  ⟨rfl, rfl, rfl, rfl, rfl, rfl, rfl, rfl, rfl, rfl, rfl, rfl⟩

/-- C2: Speed clamp: after every handleControls tick the scalar speed lies
in the interval from -0.6 * maxSpeed to the effective maximum speed, which
is 1.5 * maxSpeed while boosting and maxSpeed otherwise; the clamp never
touches the vertical velocity component, which is either carried over from
the previous tick or set to jumpForce by the jump branch; and the part_001
velocity-space clamp variant also leaves the y component untouched. -/
theorem handleControls_speed_clamped (M : JsMath) (s : Car.CarState) (dt : ℚ) :
    -(Car.maxSpeed * (3 / 5)) ≤ (Car.handleControls M s dt).speed ∧
    (Car.handleControls M s dt).speed ≤
      Car.effectiveMaxSpeed (Car.handleControls M s dt).isBoosting ∧
    ((Car.handleControls M s dt).velocity.y = s.velocity.y ∨
      (Car.handleControls M s dt).velocity.y = Car.jumpForce) ∧
    (∀ (v : Vec3) (b : Bool) (m : ℚ), (P1.limitSpeed M v b m).y = v.y) := by
  have hlohi : ∀ b : Bool,
      -(Car.maxSpeed * (3 / 5)) ≤ Car.effectiveMaxSpeed b := by
    intro b
    cases b <;> norm_num [Car.effectiveMaxSpeed, Car.maxSpeed]
  refine ⟨?_, ?_, ?_, ?_⟩
  · rw [Car.handleControls_speed_eq]
    unfold Car.clampSpeedStep clamp
    exact le_max_left _ _
  · rw [Car.handleControls_speed_eq, Car.handleControls_isBoosting_eq]
    unfold Car.clampSpeedStep clamp
    exact max_le (hlohi _) (min_le_left _ _)
  · simp only [Car.handleControls]
    split_ifs with h1 h2
    · right
      rfl
    · left
      exact Car.moveStep_y _ _ _
    · left
      exact Car.moveStep_y _ _ _
  · intro v b m
    simp only [P1.limitSpeed]
    split_ifs <;> rfl

/-- C6: Turn-effectiveness floor: for every speed of magnitude up to the
boosted maximum, the effective turn rate (for any drift state) is at least
80 percent of the turn rate at zero speed; and whenever the car is grounded
with the left-steering intent held, the angular velocity the handler sets
has magnitude at least that floor. -/
theorem turn_rate_floor (M : JsMath) (s : Car.CarState) (dt sp : ℚ) (b : Bool)
    (hsp : |sp| ≤ Car.maxSpeed * (3 / 2))
    (hg : s.isOnGround = true) (hleft : s.controls.left = true) :
    (4 / 5) * Car.effectiveTurnRate 0 false ≤ Car.effectiveTurnRate sp b ∧
    (4 / 5) * Car.effectiveTurnRate 0 false ≤
      |(Car.handleControls M s dt).angularVelocity| := by
  have h0 : Car.effectiveTurnRate 0 false = 15 / 4 := by
    unfold Car.effectiveTurnRate Car.speedFactor Car.turnSpeed Car.maxSpeed
    norm_num
  have hfloor : ∀ (v : ℚ) (d : Bool),
      (4 / 5) * Car.effectiveTurnRate 0 false ≤ Car.effectiveTurnRate v d := by
    intro v d
    rw [h0]
    calc (4 / 5 : ℚ) * (15 / 4) = 3 := by norm_num
    _ ≤ Car.effectiveTurnRate v d := Car.effectiveTurnRate_ge_three v d
  refine ⟨hfloor sp b, ?_⟩
  rw [Car.handleControls_angularVelocity_eq]
  unfold Car.turnStep
  rw [hg, hleft]
  simp only [if_true]
  cases hdb : Car.isDrivingBackward s.controls s.speed <;>
    simp only [hdb, Bool.false_eq_true, if_false, if_true] <;>
    rw [if_pos (by norm_num)]
  · rw [one_mul]
    exact le_trans (hfloor _ _) (le_abs_self _)
  · rw [neg_one_mul, abs_neg]
    exact le_trans (hfloor _ _) (le_abs_self _)

/-- Witness for C6 at speed 80 and a concrete grounded car steering
left. -/
theorem turn_rate_floor_witness :
    (4 / 5) * Car.effectiveTurnRate 0 false ≤ Car.effectiveTurnRate 80 false ∧
    (4 / 5) * Car.effectiveTurnRate 0 false ≤
      |(Car.handleControls jsMath0 carLeft0 (1 / 60)).angularVelocity| := by
  have h := turn_rate_floor jsMath0 carLeft0 (1 / 60) 80 false
    (by norm_num [Car.maxSpeed]) rfl rfl
  exact h

theorem Car.gravityStep_fields (s : Car.CarState) (dt : ℚ) :
    (Car.gravityStep s dt).canJump = s.canJump ∧
    (Car.gravityStep s dt).isOnGround = s.isOnGround ∧
    (Car.gravityStep s dt).jumpCooldown = s.jumpCooldown ∧
    (Car.gravityStep s dt).position = s.position ∧
    (Car.gravityStep s dt).boostAmount = s.boostAmount ∧
    (Car.gravityStep s dt).isBoosting = s.isBoosting := by
  unfold Car.gravityStep
  split_ifs <;> exact ⟨rfl, rfl, rfl, rfl, rfl, rfl⟩

theorem Car.integrateStep_fields (s : Car.CarState) (dt : ℚ) :
    (Car.integrateStep s dt).canJump = s.canJump ∧
    (Car.integrateStep s dt).isOnGround = s.isOnGround ∧
    (Car.integrateStep s dt).jumpCooldown = s.jumpCooldown ∧
    (Car.integrateStep s dt).boostAmount = s.boostAmount ∧
    (Car.integrateStep s dt).isBoosting = s.isBoosting :=
  ⟨rfl, rfl, rfl, rfl, rfl⟩

theorem Car.groundStep_fields (s : Car.CarState) :
    (Car.groundStep s).canJump = s.canJump ∧
    (Car.groundStep s).jumpCooldown = s.jumpCooldown ∧
    (Car.groundStep s).boostAmount = s.boostAmount ∧
    (Car.groundStep s).isBoosting = s.isBoosting ∧
    Car.groundLevel ≤ (Car.groundStep s).position.y := by
  unfold Car.groundStep
  split_ifs with h
  · exact ⟨rfl, rfl, rfl, rfl, le_refl _⟩
  · exact ⟨rfl, rfl, rfl, rfl, (not_le.mp h).le⟩

theorem Car.groundStep_isOnGround_of (s : Car.CarState)
    (h : s.isOnGround = true) : (Car.groundStep s).isOnGround = true := by
  unfold Car.groundStep
  split_ifs <;> simpa

theorem Car.cooldownStep_fields (s : Car.CarState) (dt : ℚ) :
    (Car.cooldownStep s dt).position = s.position ∧
    (Car.cooldownStep s dt).isOnGround = s.isOnGround ∧
    (Car.cooldownStep s dt).boostAmount = s.boostAmount ∧
    (Car.cooldownStep s dt).isBoosting = s.isBoosting := by
  unfold Car.cooldownStep
  split_ifs <;> exact ⟨rfl, rfl, rfl, rfl⟩

theorem Car.cooldownStep_canJump_pos (s : Car.CarState) (dt : ℚ)
    (h : 0 < s.jumpCooldown) : (Car.cooldownStep s dt).canJump = s.canJump := by
  unfold Car.cooldownStep
  rw [if_pos h]

theorem Car.cooldownStep_canJump_char (s : Car.CarState) (dt : ℚ) :
    (Car.cooldownStep s dt).canJump = true →
      s.canJump = true ∨ (s.jumpCooldown ≤ 0 ∧ s.isOnGround = true) := by
  unfold Car.cooldownStep
  split_ifs with h1 h2
  · exact fun h => Or.inl h
  · intro _
    simp only [Bool.and_eq_true] at h2
    exact Or.inr ⟨le_of_not_lt h1, h2.2⟩
  · exact fun h => Or.inl h

theorem Car.cooldownStep_rearm (s : Car.CarState) (dt : ℚ)
    (h1 : ¬0 < s.jumpCooldown) (h2 : s.canJump = false)
    (h3 : s.isOnGround = true) : (Car.cooldownStep s dt).canJump = true := by
  unfold Car.cooldownStep
  rw [if_neg h1, if_pos (by simp [h2, h3])]

theorem Car.rechargeStep_fields (s : Car.CarState) (dt : ℚ) :
    (Car.rechargeStep s dt).canJump = s.canJump ∧
    (Car.rechargeStep s dt).isOnGround = s.isOnGround ∧
    (Car.rechargeStep s dt).jumpCooldown = s.jumpCooldown ∧
    (Car.rechargeStep s dt).position = s.position := by
  unfold Car.rechargeStep
  split_ifs <;> exact ⟨rfl, rfl, rfl, rfl⟩

theorem Car.wallBounceStep_fields (s : Car.CarState) :
    (Car.wallBounceStep s).canJump = s.canJump ∧
    (Car.wallBounceStep s).isOnGround = s.isOnGround ∧
    (Car.wallBounceStep s).jumpCooldown = s.jumpCooldown ∧
    (Car.wallBounceStep s).boostAmount = s.boostAmount ∧
    (Car.wallBounceStep s).speed = s.speed := by
  simp only [Car.wallBounceStep]
  split_ifs <;> exact ⟨rfl, rfl, rfl, rfl, rfl⟩

/-- The out-of-bounds reset inside update can never fire: the ground
collision step, which runs first, leaves the height at groundLevel or
above, far above the -50 threshold. -/
theorem Car.update_eq_steps (M : JsMath) (s : Car.CarState) (dt : ℚ) :
    Car.update M s dt =
      Car.wallBounceStep (Car.rechargeStep (Car.cooldownStep (Car.groundStep
        (Car.integrateStep (Car.gravityStep (Car.handleControls M s dt) dt)
          dt)) dt) dt) := by
  unfold Car.update Car.outOfBoundsStep
  rw [if_neg]
  rw [not_lt,
    (Car.rechargeStep_fields _ _).2.2.2, (Car.cooldownStep_fields _ _).1]
  calc (-50 : ℚ) ≤ Car.groundLevel := by
        norm_num [Car.groundLevel, Car.dimHeight]
  _ ≤ _ := (Car.groundStep_fields _).2.2.2.2

theorem Car.handleControls_jump_fires (M : JsMath) (s : Car.CarState) (dt : ℚ)
    (h : Car.jumpFires s = true) :
    (Car.handleControls M s dt).canJump = false ∧
    (Car.handleControls M s dt).isJumping = true ∧
    (Car.handleControls M s dt).isOnGround = false ∧
    (Car.handleControls M s dt).jumpCooldown = Car.jumpCooldownTime ∧
    (Car.handleControls M s dt).velocity.y = Car.jumpForce := by
  simp only [Car.handleControls]
  rw [if_pos h]
  exact ⟨rfl, rfl, rfl, rfl, rfl⟩

theorem Car.handleControls_jump_not_fires (M : JsMath) (s : Car.CarState)
    (dt : ℚ) (h : Car.jumpFires s = false) :
    (Car.handleControls M s dt).canJump = s.canJump ∧
    (Car.handleControls M s dt).isOnGround = s.isOnGround ∧
    (Car.handleControls M s dt).jumpCooldown = s.jumpCooldown ∧
    (Car.handleControls M s dt).velocity.y = s.velocity.y := by
  simp only [Car.handleControls]
  rw [if_neg (by simp [h])]
  split_ifs <;> exact ⟨rfl, rfl, rfl, Car.moveStep_y _ _ _⟩

theorem Car.update_canJump_of_fires (M : JsMath) (s : Car.CarState) (dt : ℚ)
    (h : Car.jumpFires s = true) : (Car.update M s dt).canJump = false := by
  rw [Car.update_eq_steps,
    (Car.wallBounceStep_fields _).1, (Car.rechargeStep_fields _ _).1]
  have ht := Car.handleControls_jump_fires M s dt h
  have hcd : (Car.groundStep (Car.integrateStep
      (Car.gravityStep (Car.handleControls M s dt) dt) dt)).jumpCooldown =
      Car.jumpCooldownTime := by
    rw [(Car.groundStep_fields _).2.1, (Car.integrateStep_fields _ _).2.2.1,
      (Car.gravityStep_fields _ _).2.2.1, ht.2.2.2.1]
  rw [Car.cooldownStep_canJump_pos _ _ (by
    rw [hcd]
    norm_num [Car.jumpCooldownTime])]
  rw [(Car.groundStep_fields _).1, (Car.integrateStep_fields _ _).1,
    (Car.gravityStep_fields _ _).1, ht.1]

/-- C4: Jump gating: the jump intent imparts an upward velocity exactly
when the guard (intent held, jump armed, not mid-jump, grounded) holds; a
tick in which the jump fires ends with the jump disarmed, so holding or
repeating the intent within one cooldown window never imparts a second
impulse; and after a full update the jump is armed only if it was already
armed and did not fire, or the cooldown had elapsed and the car ends the
tick grounded. -/
theorem jump_gating (M : JsMath) (s : Car.CarState) (dt : ℚ) :
    (Car.jumpFires s = false →
      (Car.handleControls M s dt).velocity.y = s.velocity.y) ∧
    (Car.jumpFires s = true →
      (Car.handleControls M s dt).velocity.y = Car.jumpForce) ∧
    (Car.jumpFires s = true → (Car.update M s dt).canJump = false) ∧
    ((Car.update M s dt).canJump = true →
      (s.canJump = true ∧ Car.jumpFires s = false) ∨
      (s.jumpCooldown ≤ 0 ∧ (Car.update M s dt).isOnGround = true)) := by
  refine ⟨fun h => (Car.handleControls_jump_not_fires M s dt h).2.2.2,
    fun h => (Car.handleControls_jump_fires M s dt h).2.2.2.2,
    Car.update_canJump_of_fires M s dt, ?_⟩
  intro h
  cases hf : Car.jumpFires s with
  | true => exact absurd h (by rw [Car.update_canJump_of_fires M s dt hf]; simp)
  | false =>
    have ht := Car.handleControls_jump_not_fires M s dt hf
    rw [Car.update_eq_steps, (Car.wallBounceStep_fields _).1,
      (Car.rechargeStep_fields _ _).1] at h
    have hchar := Car.cooldownStep_canJump_char _ dt h
    cases hchar with
    | inl hj =>
      left
      refine ⟨?_, rfl⟩
      rw [(Car.groundStep_fields _).1, (Car.integrateStep_fields _ _).1,
        (Car.gravityStep_fields _ _).1, ht.1] at hj
      exact hj
    | inr hj =>
      right
      constructor
      · have := hj.1
        rw [(Car.groundStep_fields _).2.1, (Car.integrateStep_fields _ _).2.2.1,
          (Car.gravityStep_fields _ _).2.2.1, ht.2.2.1] at this
        exact this
      · rw [Car.update_eq_steps, (Car.wallBounceStep_fields _).2.1,
          (Car.rechargeStep_fields _ _).2.1, (Car.cooldownStep_fields _ _).2.1]
        exact hj.2

/-- Witness for C4: a concrete grounded car that fires its jump ends the
tick with the jump disarmed and vertical velocity jumpForce; a concrete
disarmed car with elapsed cooldown re-arms only through the grounded
re-arm rule. -/
theorem jump_gating_witness :
    (Car.update jsMath0 carJump0 (1 / 10)).canJump = false ∧
    (Car.handleControls jsMath0 carJump0 (1 / 10)).velocity.y = Car.jumpForce ∧
    ((carRearm0.canJump = true ∧ Car.jumpFires carRearm0 = false) ∨
      (carRearm0.jumpCooldown ≤ 0 ∧
        (Car.update jsMath0 carRearm0 (1 / 10)).isOnGround = true)) := by
  have hfire : Car.jumpFires carJump0 = true := rfl
  have h1 := (jump_gating jsMath0 carJump0 (1 / 10)).2.2.1 hfire
  have h2 := (jump_gating jsMath0 carJump0 (1 / 10)).2.1 hfire
  have hcj : (Car.update jsMath0 carRearm0 (1 / 10)).canJump = true := by
    rw [Car.update_eq_steps, (Car.wallBounceStep_fields _).1,
      (Car.rechargeStep_fields _ _).1]
    have ht := Car.handleControls_jump_not_fires jsMath0 carRearm0 (1 / 10) rfl
    apply Car.cooldownStep_rearm
    · rw [(Car.groundStep_fields _).2.1, (Car.integrateStep_fields _ _).2.2.1,
        (Car.gravityStep_fields _ _).2.2.1, ht.2.2.1]
      norm_num [carRearm0, carState0]
    · rw [(Car.groundStep_fields _).1, (Car.integrateStep_fields _ _).1,
        (Car.gravityStep_fields _ _).1, ht.1]
      rfl
    · apply Car.groundStep_isOnGround_of
      rw [(Car.integrateStep_fields _ _).2.1,
        (Car.gravityStep_fields _ _).2.1, ht.2.1]
      rfl
  exact ⟨h1, h2, (jump_gating jsMath0 carRearm0 (1 / 10)).2.2.2 hcj⟩

theorem Car.update_boostAmount_char (M : JsMath) (s : Car.CarState) (dt : ℚ) :
    (Car.update M s dt).boostAmount =
      if !(Car.handleControls M s dt).isBoosting &&
          decide (s.boostAmount < 100) then
        (if 100 < s.boostAmount + Car.boostRechargeRate * dt then 100
          else s.boostAmount + Car.boostRechargeRate * dt)
      else s.boostAmount := by
  rw [Car.update_eq_steps, (Car.wallBounceStep_fields _).2.2.2.1]
  have hb : (Car.cooldownStep (Car.groundStep (Car.integrateStep
      (Car.gravityStep (Car.handleControls M s dt) dt) dt)) dt).boostAmount =
      s.boostAmount := by
    rw [(Car.cooldownStep_fields _ _).2.2.1, (Car.groundStep_fields _).2.2.1,
      (Car.integrateStep_fields _ _).2.2.2.1,
      (Car.gravityStep_fields _ _).2.2.2.2.1, Car.handleControls_boostAmount]
  have hib : (Car.cooldownStep (Car.groundStep (Car.integrateStep
      (Car.gravityStep (Car.handleControls M s dt) dt) dt)) dt).isBoosting =
      (Car.handleControls M s dt).isBoosting := by
    rw [(Car.cooldownStep_fields _ _).2.2.2, (Car.groundStep_fields _).2.2.2.1,
      (Car.integrateStep_fields _ _).2.2.2.2,
      (Car.gravityStep_fields _ _).2.2.2.2.2]
  unfold Car.rechargeStep
  rw [apply_ite Car.CarState.boostAmount, hb, hib]

theorem P2.boostTick_eq (c : Controls) (a dt : ℚ) :
    P2.boostTick c a dt =
      if c.boost && decide (0 < a) then
        (if a - P2.boostConsumptionRate * dt < 0 then 0
          else a - P2.boostConsumptionRate * dt)
      else if a < 100 then
        (if 100 < a + P2.boostRechargeRate * dt then 100
          else a + P2.boostRechargeRate * dt)
      else a := by
  simp only [P2.boostTick, P2.boostConsumeStep, P2.rechargeStep]
  split_ifs <;> simp_all

/-- C8: Boost-amount invariant: one update tick keeps boostAmount inside
[0, 100] and never decreases it (the live car.js variant has consumption
disabled); while not boosting and below 100 it recharges linearly, clamped
at 100; and in the part_002 consumption variant the boost amount stays in
[0, 100] and strictly decreases only when the boost intent is held with the
positive consumption rate over a positive time step. -/
theorem boost_amount_invariant (M : JsMath) (s : Car.CarState) (c : Controls)
    (a dt : ℚ) (hdt : 0 ≤ dt) (h0 : 0 ≤ s.boostAmount)
    (h1 : s.boostAmount ≤ 100) (ha0 : 0 ≤ a) (ha1 : a ≤ 100) :
    (0 ≤ (Car.update M s dt).boostAmount ∧
      (Car.update M s dt).boostAmount ≤ 100) ∧
    s.boostAmount ≤ (Car.update M s dt).boostAmount ∧
    ((Car.handleControls M s dt).isBoosting = false → s.boostAmount < 100 →
      (Car.update M s dt).boostAmount =
        min (s.boostAmount + Car.boostRechargeRate * dt) 100) ∧
    (0 ≤ P2.boostTick c a dt ∧ P2.boostTick c a dt ≤ 100) ∧
    (P2.boostTick c a dt < a →
      c.boost = true ∧ 0 < P2.boostConsumptionRate ∧ 0 < dt) := by
  have hrate : Car.boostRechargeRate = 10 := rfl
  refine ⟨?_, ?_, ?_, ?_, ?_⟩
  · rw [Car.update_boostAmount_char, hrate]
    split_ifs <;> constructor <;> linarith
  · rw [Car.update_boostAmount_char, hrate]
    split_ifs <;> linarith
  · intro hb hlt
    rw [Car.update_boostAmount_char, hb]
    simp only [Bool.not_false, Bool.true_and]
    rw [if_pos (decide_eq_true hlt), min_def]
    split_ifs <;> linarith
  · rw [P2.boostTick_eq]
    have hc30 : P2.boostConsumptionRate = 30 := rfl
    have hr10 : P2.boostRechargeRate = 10 := rfl
    rw [hc30, hr10]
    split_ifs <;> constructor <;> linarith
  · rw [P2.boostTick_eq]
    have hc30 : P2.boostConsumptionRate = 30 := rfl
    have hr10 : P2.boostRechargeRate = 10 := rfl
    rw [hc30, hr10]
    split_ifs with hg hn hr hc2 <;> intro hlt <;>
      simp only [Bool.and_eq_true, decide_eq_true_eq] at hg
    · exact ⟨hg.1, by norm_num [P2.boostConsumptionRate], by nlinarith [hg.2]⟩
    · exact ⟨hg.1, by norm_num [P2.boostConsumptionRate], by nlinarith⟩
    · exact absurd hlt (by linarith)
    · exact absurd hlt (by linarith)
    · exact absurd hlt (by linarith)

/-- Witness for C8 at a concrete state with full boost and a concrete
part_002 boost amount of 50. -/
theorem boost_amount_invariant_witness :
    (0 ≤ (Car.update jsMath0 carState0 (1 / 10)).boostAmount ∧
      (Car.update jsMath0 carState0 (1 / 10)).boostAmount ≤ 100) ∧
    (0 ≤ P2.boostTick Controls.allOff 50 (1 / 10) ∧
      P2.boostTick Controls.allOff 50 (1 / 10) ≤ 100) := by
  have h := boost_amount_invariant jsMath0 carState0 Controls.allOff 50 (1 / 10)
    (by norm_num) (by norm_num [carState0]) (by norm_num [carState0])
    (by norm_num) (by norm_num)
  exact ⟨h.1, h.2.2.2.1⟩

theorem Car.accelBrakeStep_allOff (v dt : ℚ) :
    Car.accelBrakeStep Controls.allOff v dt =
      if 0 < v then
        (if v - Car.deceleration * dt < 0 then 0 else v - Car.deceleration * dt)
      else if v < 0 then
        (if 0 < v + Car.deceleration * dt then 0 else v + Car.deceleration * dt)
      else v := by
  simp only [Car.accelBrakeStep, Controls.allOff]
  rfl

theorem Car.boostStep_allOff (db og : Bool) (v dt : ℚ) :
    Car.boostStep Controls.allOff db og v dt = (false, v) := by
  simp only [Car.boostStep, Controls.allOff]
  rfl

theorem Car.accelBrakeStep_allOff_props (v dt : ℚ) (hdt : 0 ≤ dt) :
    |Car.accelBrakeStep Controls.allOff v dt| ≤
      max (|v| - Car.deceleration * dt) 0 ∧
    (0 ≤ v → 0 ≤ Car.accelBrakeStep Controls.allOff v dt) ∧
    (v ≤ 0 → Car.accelBrakeStep Controls.allOff v dt ≤ 0) := by
  rw [Car.accelBrakeStep_allOff]
  have hd : Car.deceleration = 200 := rfl
  rw [hd]
  split_ifs with h1 h2 h3 h4
  · refine ⟨by simpa using le_max_right _ _, fun _ => le_refl 0, ?_⟩
    intro h
    linarith
  · refine ⟨?_, fun _ => by linarith [not_lt.mp h2], fun h => absurd h1 (by linarith)⟩
    rw [abs_of_nonneg (by linarith [not_lt.mp h2] : (0 : ℚ) ≤ v - 200 * dt),
      abs_of_pos h1]
    exact le_max_left _ _
  · refine ⟨by simpa using le_max_right _ _, ?_, fun _ => le_refl 0⟩
    intro h
    linarith
  · refine ⟨?_, fun h => absurd h3 (by linarith), fun _ => by linarith [not_lt.mp h4]⟩
    rw [abs_of_nonpos (by linarith [not_lt.mp h4] : v + 200 * dt ≤ 0),
      abs_of_neg h3]
    calc -(v + 200 * dt) = -v - 200 * dt := by ring
    _ ≤ max (-v - 200 * dt) 0 := le_max_left _ _
  · have hv : v = 0 := le_antisymm (not_lt.mp h1) (not_lt.mp h3)
    subst hv
    exact ⟨by simpa using le_max_right _ _, fun _ => le_refl 0, fun _ => le_refl 0⟩

theorem Car.clampSpeedStep_false_props (v : ℚ) :
    |Car.clampSpeedStep false v| ≤ |v| ∧
    (0 ≤ v → 0 ≤ Car.clampSpeedStep false v) ∧
    (v ≤ 0 → Car.clampSpeedStep false v ≤ 0) := by
  have hmax : Car.effectiveMaxSpeed false = 80 := rfl
  have hlo : -(Car.maxSpeed * (3 / 5)) = -48 := by norm_num [Car.maxSpeed]
  unfold Car.clampSpeedStep clamp
  rw [hmax, hlo]
  refine ⟨?_, ?_, ?_⟩
  · rcases le_total 0 v with h | h
    · have hmin : (0 : ℚ) ≤ min 80 v := le_min (by norm_num) h
      rw [max_eq_right (by linarith), abs_of_nonneg hmin, abs_of_nonneg h]
      exact min_le_right _ _
    · rw [min_eq_right (by linarith : v ≤ (80 : ℚ))]
      rcases le_total (-48 : ℚ) v with h2 | h2
      · rw [max_eq_right h2]
      · rw [max_eq_left h2, abs_of_nonpos h,
          (by norm_num : |(-48 : ℚ)| = 48)]
        linarith
  · intro h
    exact le_trans (le_min (by norm_num) h) (le_max_right _ _)
  · intro h
    exact max_le (by norm_num) (le_trans (min_le_right _ _) h)

theorem Car.handleControls_brake_tick (M : JsMath) (s : Car.CarState) (dt : ℚ)
    (hc : s.controls = Controls.allOff) (hdt : 0 ≤ dt) :
    |(Car.handleControls M s dt).speed| ≤
      max (|s.speed| - Car.deceleration * dt) 0 ∧
    (0 ≤ s.speed → 0 ≤ (Car.handleControls M s dt).speed) ∧
    (s.speed ≤ 0 → (Car.handleControls M s dt).speed ≤ 0) := by
  rw [Car.handleControls_speed_eq, hc, Car.boostStep_allOff]
  have hab := Car.accelBrakeStep_allOff_props s.speed dt hdt
  have hcl := Car.clampSpeedStep_false_props
    (Car.accelBrakeStep Controls.allOff s.speed dt)
  refine ⟨le_trans (hcl.1) hab.1, ?_, ?_⟩
  · intro h
    exact hcl.2.1 (hab.2.1 h)
  · intro h
    exact hcl.2.2 (hab.2.2 h)

theorem Car.brake_iterate_zero (M : JsMath) (dt : ℚ) (hdt : 0 < dt) :
    ∀ (n : ℕ) (s : Car.CarState), s.controls = Controls.allOff →
      |s.speed| ≤ n * (Car.deceleration * dt) →
      ((fun st => Car.handleControls M st dt)^[n] s).speed = 0 := by
  intro n
  induction n with
  | zero =>
    intro s hc hb
    rw [Function.iterate_zero_apply]
    rw [Nat.cast_zero, zero_mul] at hb
    exact abs_nonpos_iff.mp hb
  | succ k ih =>
    intro s hc hb
    rw [Function.iterate_succ_apply]
    apply ih
    · rw [Car.handleControls_controls, hc]
    · have hstep := (Car.handleControls_brake_tick M s dt hc hdt.le).1
      apply le_trans hstep
      have hdec : Car.deceleration = 200 := rfl
      rw [Nat.cast_succ] at hb
      apply max_le
      · rw [hdec] at hb ⊢
        nlinarith
      · rw [hdec]
        positivity

/-- C3 counterexample: with deltaTime 0, which the claim allows, braking
makes no progress: from speed 10 with no intents held the speed after any
number of ticks is still 10, never 0, so no bounded number of ticks drives
it to exactly 0. -/
theorem braking_no_convergence_dt_zero :
    (fun n : ℕ =>
        ((fun st => Car.handleControls jsMath0 st 0)^[n] carBrake10).speed) =
      (fun _ : ℕ => (10 : ℚ)) ∧ (10 : ℚ) ≠ 0 := by
  have hctl : ∀ n : ℕ,
      ((fun st => Car.handleControls jsMath0 st 0)^[n] carBrake10).controls =
        Controls.allOff := by
    intro n
    induction n with
    | zero => rfl
    | succ k ih =>
      rw [Function.iterate_succ_apply', Car.handleControls_controls, ih]
  constructor
  · funext n
    induction n with
    | zero => rfl
    | succ k ih =>
      rw [Function.iterate_succ_apply', Car.handleControls_speed_eq, hctl k,
        Car.boostStep_allOff, ih]
      norm_num [Car.accelBrakeStep_allOff, Car.deceleration,
        Car.clampSpeedStep, clamp, Car.effectiveMaxSpeed, Car.maxSpeed]
  · norm_num

/-- C3 (amended): for every deltaTime at least 0 a braking tick (no intents
held) never increases the speed magnitude and never moves the speed past
zero; and for every deltaTime strictly greater than 0, iterating the
handler for any n with n * (deceleration * deltaTime) at least the initial
speed magnitude drives the speed to exactly 0 (at deltaTime exactly 0 the
claimed convergence fails, see the counterexample). -/
theorem braking_convergence (M : JsMath) (s : Car.CarState) (dt : ℚ)
    (hc : s.controls = Controls.allOff) (hdt : 0 ≤ dt) :
    |(Car.handleControls M s dt).speed| ≤ |s.speed| ∧
    (0 ≤ s.speed → 0 ≤ (Car.handleControls M s dt).speed) ∧
    (s.speed ≤ 0 → (Car.handleControls M s dt).speed ≤ 0) ∧
    (∀ n : ℕ, 0 < dt → |s.speed| ≤ n * (Car.deceleration * dt) →
      ((fun st => Car.handleControls M st dt)^[n] s).speed = 0) := by
  have hstep := Car.handleControls_brake_tick M s dt hc hdt
  refine ⟨?_, hstep.2.1, hstep.2.2, ?_⟩
  · apply le_trans hstep.1
    apply max_le
    · have : 0 ≤ Car.deceleration * dt := by
        have hdec : Car.deceleration = 200 := rfl
        rw [hdec]
        positivity
      linarith
    · exact abs_nonneg _
  · intro n hpos hb
    exact Car.brake_iterate_zero M dt hpos n s hc hb

/-- Witness for C3 (amended) at speed 10, deltaTime one tenth: one tick
keeps the magnitude bounded and one tick suffices to reach exactly 0. -/
theorem braking_convergence_witness :
    |(Car.handleControls jsMath0 carBrake10 (1 / 10)).speed| ≤ |carBrake10.speed| ∧
    ((fun st => Car.handleControls jsMath0 st (1 / 10))^[1] carBrake10).speed = 0 := by
  have h := braking_convergence jsMath0 carBrake10 (1 / 10) rfl (by norm_num)
  refine ⟨h.1, h.2.2.2 1 (by norm_num) ?_⟩
  rw [show carBrake10.speed = 10 from rfl]
  have hdec : Car.deceleration = 200 := rfl
  rw [hdec]
  norm_num

theorem Vec3.add_zero_smul (v : Vec3) (k : ℚ) :
    v.add ((Vec3.mk 0 0 0).smul k) = v := by
  unfold Vec3.smul Vec3.add
  simp

theorem Vec3.normalize_zero (M : JsMath) (hs : M.sqrt 0 = 0) :
    (Vec3.mk 0 0 0).normalize M = ⟨0, 0, 0⟩ := by
  simp only [Vec3.normalize, Vec3.length, Vec3.lengthSq]
  norm_num [hs, Vec3.smul]

theorem BallState.applyImpulse_zero_dir (M : JsMath) (b : BallState) (f : ℚ)
    (hs : M.sqrt 0 = 0) : b.applyImpulse M ⟨0, 0, 0⟩ f = b := by
  simp only [BallState.applyImpulse]
  rw [Vec3.normalize_zero M hs]
  rw [show (Vec3.mk 0 0 0).smul f = ⟨0, 0, 0⟩ by unfold Vec3.smul; simp]
  rw [Vec3.add_zero_smul]

/-- C9: Degenerate contact geometry: when the car and ball centers
coincide, the contact-normal normalization degenerates; the normalize guard
(divisor length() or 1) substitutes the divisor 1, so the normal is the
safe zero vector, the collision is still reported, and neither the ball
velocity nor the car velocity receives any component (no NaN can arise in
the embedding: every division performed has a nonzero divisor). -/
theorem degenerate_contact_safe (M : JsMath) (c : Car.CarState)
    (ball : BallState) (hco : ball.position = c.position)
    (hs : M.sqrt 0 = 0) (hr : 0 ≤ ball.radius) :
    (ball.position.sub c.position).normalize M = ⟨0, 0, 0⟩ ∧
    (Car.handleBallCollision M c ball).2.2 = true ∧
    (Car.handleBallCollision M c ball).2.1.velocity = ball.velocity ∧
    (Car.handleBallCollision M c ball).1.velocity = c.velocity := by
  have hsub : ball.position.sub c.position = ⟨0, 0, 0⟩ := by
    rw [hco]
    unfold Vec3.sub
    simp
  have hnorm : (ball.position.sub c.position).normalize M = ⟨0, 0, 0⟩ := by
    rw [hsub]
    exact Vec3.normalize_zero M hs
  have hlen : (ball.position.sub c.position).length M = 0 := by
    rw [hsub]
    simp only [Vec3.length, Vec3.lengthSq]
    norm_num [hs]
  have hcr : Car.carRadius = 6 := by
    unfold Car.carRadius Car.dimWidth Car.dimHeight Car.dimLength
    norm_num [max_def]
  have hguard : (ball.position.sub c.position).length M <
      Car.carRadius + (if ball.radius = 0 then 5 else ball.radius) := by
    rw [hlen, hcr]
    split_ifs with h
    · norm_num
    · have : 0 < ball.radius := lt_of_le_of_ne hr (Ne.symm h)
      linarith
  refine ⟨hnorm, ?_, ?_, ?_⟩
  · simp only [Car.handleBallCollision]
    rw [if_pos hguard]
  · simp only [Car.handleBallCollision]
    rw [if_pos hguard, hnorm]
    rw [if_neg (by
      intro h
      have := h.2
      rw [show (Car.forwardDir M c.rotationY).dot ⟨0, 0, 0⟩ = 0 by
        unfold Vec3.dot; ring] at this
      norm_num at this)]
    show (BallState.applyImpulse M ball ⟨0, 0, 0⟩ _).velocity = ball.velocity
    rw [BallState.applyImpulse_zero_dir M ball _ hs]
  · simp only [Car.handleBallCollision]
    rw [if_pos hguard, hnorm]
    show (c.velocity.add ((Vec3.mk 0 0 0).smul _)) = c.velocity
    exact Vec3.add_zero_smul _ _

/-- Witness for C9 with a concrete ball placed exactly at the concrete
car's center. -/
theorem degenerate_contact_safe_witness :
    (ballCo0.position.sub carState0.position).normalize jsMath0 = ⟨0, 0, 0⟩ ∧
    (Car.handleBallCollision jsMath0 carState0 ballCo0).2.2 = true ∧
    (Car.handleBallCollision jsMath0 carState0 ballCo0).2.1.velocity =
      ballCo0.velocity := by
  have h := degenerate_contact_safe jsMath0 carState0 ballCo0 rfl rfl
    (by norm_num [ballCo0])
  exact ⟨h.1, h.2.1, h.2.2.1⟩

theorem Car.handleControls_controls_congr (M : JsMath) (s : Car.CarState)
    (dt : ℚ) (c1 c2 : Controls)
    (hdb : Car.isDrivingBackward c1 s.speed = Car.isDrivingBackward c2 s.speed)
    (hab : Car.accelBrakeStep c1 s.speed dt = Car.accelBrakeStep c2 s.speed dt)
    (hbs : Car.boostStep c1 = Car.boostStep c2)
    (hts : Car.turnStep c1 = Car.turnStep c2)
    (hjump : c1.jump = c2.jump) (hdrift : c1.drift = c2.drift) :
    Car.handleControls M { s with controls := c1 } dt =
      { Car.handleControls M { s with controls := c2 } dt
        with controls := c1 } := by
  simp only [Car.handleControls, Car.jumpFires]
  rw [hdb, hab, hbs, hts, hjump, hdrift]
  split_ifs <;> rfl

/-- C10: Conflicting-input tie-break: with both forward and backward
intents held the handler behaves exactly as if only forward were held (the
resulting states agree on every field except the stored control snapshot
itself, and the longitudinal chain adds acceleration * deltaTime), and with
both left and right held it behaves exactly as if only left were held: the
first branch of each if-else chain wins, never additive cancellation. -/
theorem conflicting_input_tiebreak (M : JsMath) (s : Car.CarState) (dt : ℚ) :
    Car.handleControls M { s with controls := { s.controls with forward := true, backward := true } } dt =
      { Car.handleControls M { s with controls := { s.controls with forward := true, backward := false } } dt
        with controls := { s.controls with forward := true, backward := true } } ∧
    Car.accelBrakeStep { s.controls with forward := true, backward := true } s.speed dt =
      s.speed + Car.acceleration * dt ∧
    Car.handleControls M { s with controls := { s.controls with left := true, right := true } } dt =
      { Car.handleControls M { s with controls := { s.controls with left := true, right := false } } dt
        with controls := { s.controls with left := true, right := true } } := by
  refine ⟨?_, ?_, ?_⟩
  · apply Car.handleControls_controls_congr
    · simp [Car.isDrivingBackward]
    · simp [Car.accelBrakeStep]
    · funext a b v w
      simp only [Car.boostStep]
    · funext a b c3 v w
      simp only [Car.turnStep]
    · rfl
    · rfl
  · simp [Car.accelBrakeStep]
  · apply Car.handleControls_controls_congr
    · rfl
    · rfl
    · funext a b v w
      simp only [Car.boostStep]
    · funext a b c3 v w
      simp only [Car.turnStep]
      simp
    · rfl
    · rfl

end RocketLeague
